import Mathlib

/-!
# nomad-autoscaler-dynatrace: the APM plugin, embedded and verified

A shallow embedding of `plugin/util.go` and `plugin/plugin.go`.

Conventions of the embedding.

* A Go `string` is a Lean `String` (the Go strings that are valid UTF-8).
* A Go `error` is an `Option String`: `none` is `nil`, `some msg` is an error whose
  `Error()` text is `msg` (every error this package creates comes from `fmt.Errorf`
  without `%w`, so the text is all there is to it).
* A Go slice is a `List`; the nil slice and the empty slice are both `[]`
  (`len` is `0` for both, and the package never tells them apart).
* A function that can panic at run time returns an `Option`; `none` is the panic.
* `int64` values are `Int`s; arithmetic that can overflow is wrapped with `wrap64`.
* `float64` metric values are never computed with, so the value type is a parameter `V`.
-/

set_option autoImplicit false

namespace Plugin

/-! ## Pieces of the Go standard library the package calls -/

/-- A Go `error`: `none` is `nil`, `some msg` carries the text of `Error()`. -/
abbrev error := Option String

/-- The process environment as `os.LookupEnv` sees it: `none` when the variable is unset. -/
abbrev Env := String → Option String

/-- The backslash character. -/
def backslash : Char := Char.ofNat 92

/-- The double-quote character. -/
def dquote : Char := Char.ofNat 34

/-- The hexadecimal digit of `n` (for `n < 16`), as `strconv`'s `lowerhex` table gives it. -/
def lowerhex (n : Nat) : Char := "0123456789abcdef".data.getD n '0'

/-- Go `strconv.IsPrint`. Latin-1 is decided by the function itself; above `U+00FF` Go consults
Unicode tables, which are taken as the parameter `printTable`. -/
def IsPrint (printTable : Char → Bool) (r : Char) : Bool :=
  if r.toNat ≤ 0xFF then
    if 0x20 ≤ r.toNat ∧ r.toNat < 0x7F then true
    else if 0xA1 ≤ r.toNat then r.toNat != 0xAD
    else false
  else printTable r

/-- Go `strconv.appendEscapedRune` for the double quote, neither ASCII-only nor graphic-only:
the text that `Quote` emits for one rune. -/
def appendEscapedRune (printTable : Char → Bool) (buf : List Char) (r : Char) : List Char :=
  if r = dquote ∨ r = backslash then buf ++ [backslash, r]
  else if IsPrint printTable r then buf ++ [r]
  else if r.toNat = 7 then buf ++ [backslash, 'a']
  else if r.toNat = 8 then buf ++ [backslash, 'b']
  else if r.toNat = 12 then buf ++ [backslash, 'f']
  else if r.toNat = 10 then buf ++ [backslash, 'n']
  else if r.toNat = 13 then buf ++ [backslash, 'r']
  else if r.toNat = 9 then buf ++ [backslash, 't']
  else if r.toNat = 11 then buf ++ [backslash, 'v']
  else if r.toNat < 0x20 ∨ r.toNat = 0x7f then
    buf ++ [backslash, 'x', lowerhex (r.toNat / 16), lowerhex (r.toNat % 16)]
  else if r.toNat < 0x10000 then
    buf ++ [backslash, 'u', lowerhex (r.toNat / 4096 % 16), lowerhex (r.toNat / 256 % 16),
      lowerhex (r.toNat / 16 % 16), lowerhex (r.toNat % 16)]
  else
    buf ++ [backslash, 'U', lowerhex (r.toNat / 268435456 % 16),
      lowerhex (r.toNat / 16777216 % 16), lowerhex (r.toNat / 1048576 % 16),
      lowerhex (r.toNat / 65536 % 16), lowerhex (r.toNat / 4096 % 16),
      lowerhex (r.toNat / 256 % 16), lowerhex (r.toNat / 16 % 16), lowerhex (r.toNat % 16)]

/-- The loop of Go `strconv.appendQuotedWith` over the runes of the string. -/
def appendQuotedLoop (printTable : Char → Bool) : List Char → List Char → List Char
  | buf, [] => buf
  | buf, r :: s => appendQuotedLoop printTable (appendEscapedRune printTable buf r) s

/-- Go `strconv.Quote`, which is what the verb `%q` of `fmt` prints for a string. -/
def Quote (printTable : Char → Bool) (s : String) : String :=
  String.mk (appendQuotedLoop printTable [dquote] s.data ++ [dquote])

/-! ### `net/url` -/

namespace url

/-- The two fields of a Go `url.URL` that the plugin reads. -/
structure URL where
  Scheme : String
  Host : String
  deriving DecidableEq, Repr

/-- The escaping modes of `net/url` that `Parse` uses. -/
inductive encoding where
  | encodePath
  | encodeHost
  | encodeZone
  | encodeUserPassword
  | encodeFragment
  deriving DecidableEq, Repr

/-- Go `strings.HasPrefix`. -/
def startsWith (s pre : List Char) : Bool := pre.isPrefixOf s

/-- Go `strings.Index`: the position of the first occurrence of `sep` in `s`. -/
def index (sep : List Char) : List Char → Option Nat
  | [] => if sep.isPrefixOf [] then some 0 else none
  | c :: s =>
    if sep.isPrefixOf (c :: s) then some 0
    else (index sep s).map (fun i => i + 1)

/-- Go `strings.LastIndex` for a one-byte separator. -/
def lastIndex (sep : Char) : List Char → Option Nat
  | [] => none
  | c :: s =>
    match lastIndex sep s with
    | some i => some (i + 1)
    | none => if c = sep then some 0 else none

/-- Go `strings.Cut` for a one-byte separator: the text before and after its first
occurrence (all of `s` and nothing when it does not occur). -/
def cut (sep : Char) (s : List Char) : List Char × List Char :=
  match index [sep] s with
  | some i => (s.take i, s.drop (i + 1))
  | none => (s, [])

/-- Go `stringContainsCTLByte`: a byte below space, or DEL. -/
def stringContainsCTLByte (s : List Char) : Bool :=
  s.any (fun b => b.toNat < 0x20 || b.toNat == 0x7f)

/-- Whether the byte is an ASCII letter. -/
def isLetter (c : Char) : Bool :=
  ('a'.toNat ≤ c.toNat && c.toNat ≤ 'z'.toNat) || ('A'.toNat ≤ c.toNat && c.toNat ≤ 'Z'.toNat)

/-- Whether the byte is an ASCII digit. -/
def isDigit (c : Char) : Bool := '0'.toNat ≤ c.toNat && c.toNat ≤ '9'.toNat

/-- The loop of Go `getScheme` at position `i`, with `s` the text from `i` on:
`none` is the error "missing protocol scheme", otherwise the scheme and the rest. -/
def getSchemeLoop (rawURL : List Char) : Nat → List Char → Option (List Char × List Char)
  | _, [] => some ([], rawURL)
  | i, c :: s =>
    if isLetter c then getSchemeLoop rawURL (i + 1) s
    else if isDigit c || c = '+' || c = '-' || c = '.' then
      if i = 0 then some ([], rawURL) else getSchemeLoop rawURL (i + 1) s
    else if c = ':' then
      if i = 0 then none else some (rawURL.take i, s)
    else some ([], rawURL)

/-- Go `getScheme`. -/
def getScheme (rawURL : List Char) : Option (List Char × List Char) :=
  getSchemeLoop rawURL 0 rawURL

/-- Go `ishex`. -/
def ishex (c : Char) : Bool :=
  isDigit c || ('a'.toNat ≤ c.toNat && c.toNat ≤ 'f'.toNat)
    || ('A'.toNat ≤ c.toNat && c.toNat ≤ 'F'.toNat)

/-- Go `unhex`. -/
def unhex (c : Char) : Nat :=
  if isDigit c then c.toNat - '0'.toNat
  else if 'a'.toNat ≤ c.toNat && c.toNat ≤ 'f'.toNat then c.toNat - 'a'.toNat + 10
  else if 'A'.toNat ≤ c.toNat && c.toNat ≤ 'F'.toNat then c.toNat - 'A'.toNat + 10
  else 0

/-- Go `shouldEscape(c, encodeHost)`: the ASCII bytes a host may not hold. -/
def shouldEscapeHost (c : Char) : Bool :=
  if isLetter c || isDigit c then false
  else if c = '!' || c = '$' || c = '&' || c.toNat = 39 || c = '(' || c = ')' || c = '*'
      || c = '+' || c = ',' || c = ';' || c = '=' || c = ':' || c = '[' || c = ']'
      || c = '<' || c = '>' || c = dquote then false
  else if c = '-' || c = '_' || c = '.' || c = '~' then false
  else true

/-- Go `unescape` in the given mode: `none` is an `EscapeError` or `InvalidHostError`. An
escape `%XY` stands for one byte; the model keeps it as the character of that number (the
same text for an ASCII byte, which in a host is only `%25`). -/
def unescape (mode : encoding) : List Char → Option (List Char)
  | [] => some []
  | c :: s =>
    if c = '%' then
      match s with
      | h :: l :: t =>
        if !ishex h || !ishex l then none
        else if mode = encoding.encodeHost && unhex h < 8 && !(h = '2' && l = '5') then none
        else if mode = encoding.encodeZone && !(h = '2' && l = '5')
            && unhex h * 16 + unhex l != 32
            && shouldEscapeHost (Char.ofNat (unhex h * 16 + unhex l)) then none
        else (unescape mode t).map (fun r => Char.ofNat (unhex h * 16 + unhex l) :: r)
      | _ => none
    else if (mode = encoding.encodeHost || mode = encoding.encodeZone) && c.toNat < 0x80
        && shouldEscapeHost c then none
    else (unescape mode s).map (fun r => c :: r)

/-- Go `validOptionalPort`. -/
def validOptionalPort : List Char → Bool
  | [] => true
  | c :: digits => c = ':' && digits.all isDigit

/-- Go `validUserinfo`. -/
def validUserinfo (s : List Char) : Bool :=
  s.all (fun r => isLetter r || isDigit r || r = '-' || r = '.' || r = '_' || r = ':'
    || r = '~' || r = '!' || r = '$' || r = '&' || r.toNat = 39 || r = '(' || r = ')'
    || r = '*' || r = '+' || r = ',' || r = ';' || r = '=' || r = '%' || r = '@')

/-- Go `parseHost`: the unescaped host, `none` on error. -/
def parseHost (host : List Char) : Option (List Char) :=
  if startsWith host ['['] then
    match lastIndex ']' host with
    | none => none
    | some i =>
      if !validOptionalPort (host.drop (i + 1)) then none
      else
        match index ['%', '2', '5'] (host.take i) with
        | some zone =>
          match unescape encoding.encodeHost (host.take zone),
              unescape encoding.encodeZone ((host.take i).drop zone),
              unescape encoding.encodeHost (host.drop i) with
          | some host1, some host2, some host3 => some (host1 ++ host2 ++ host3)
          | _, _, _ => none
        | none => unescape encoding.encodeHost host
  else
    match lastIndex ':' host with
    | some i =>
      if !validOptionalPort (host.drop i) then none else unescape encoding.encodeHost host
    | none => unescape encoding.encodeHost host

/-- Go `parseAuthority`: the host of `[userinfo@]host`, `none` on error (the user
information is validated and dropped, the plugin never reads it). -/
def parseAuthority (authority : List Char) : Option (List Char) :=
  match lastIndex '@' authority with
  | none => parseHost authority
  | some i =>
    match parseHost (authority.drop (i + 1)) with
    | none => none
    | some host =>
      let userinfo := authority.take i
      if !validUserinfo userinfo then none
      else if !userinfo.contains ':' then
        (unescape encoding.encodeUserPassword userinfo).map (fun _ => host)
      else
        match unescape encoding.encodeUserPassword (cut ':' userinfo).1,
            unescape encoding.encodeUserPassword (cut ':' userinfo).2 with
        | some _, some _ => some host
        | _, _ => none

/-- Go `parse(rawURL, false)`: the URL without its fragment. In both branches of the query
split `rest` becomes the text before the first `?`. -/
def parse (rawURL : List Char) : Option URL :=
  if stringContainsCTLByte rawURL then none
  else if rawURL = ['*'] then some { Scheme := "", Host := "" }
  else
    match getScheme rawURL with
    | none => none
    | some (scheme, rest0) =>
      let scheme := String.mk (scheme.map Char.toLower)
      let rest := (cut '?' rest0).1
      if !startsWith rest ['/'] && scheme ≠ "" then
        some { Scheme := scheme, Host := "" }
      else if !startsWith rest ['/'] && (cut '/' rest).1.contains ':' then none
      else if (scheme ≠ "" || !startsWith rest ['/', '/', '/']) && startsWith rest ['/', '/'] then
        let authority := rest.drop 2
        let split : List Char × List Char :=
          match index ['/'] authority with
          | some i => (authority.take i, authority.drop i)
          | none => (authority, [])
        match parseAuthority split.1 with
        | none => none
        | some host =>
          match unescape encoding.encodePath split.2 with
          | none => none
          | some _ => some { Scheme := scheme, Host := String.mk host }
      else
        match unescape encoding.encodePath rest with
        | none => none
        | some _ => some { Scheme := scheme, Host := "" }

/-- Go `url.Parse` (as of Go 1.20): `none` when it returns an error. -/
def Parse (rawURL : String) : Option URL :=
  match parse (cut '#' rawURL.data).1 with
  | none => none
  | some u =>
    if (cut '#' rawURL.data).2 = [] then some u
    else
      match unescape encoding.encodeFragment (cut '#' rawURL.data).2 with
      | none => none
      | some _ => some u

end url

/-! ## `plugin/util.go` -/

/-- Go `ValueOrFallback` of `plugin/util.go`: the explicit value when it is not empty, the
result of the fallback otherwise. -/
def ValueOrFallback (value : String) (fallback : Unit → String × error) : String × error :=
  if value ≠ "" then (value, none) else fallback ()

/-- Go `FallbackFromEnv` of `plugin/util.go`: the closure that looks `key` up in the
environment and fails when it is unset or empty. -/
def FallbackFromEnv (printTable : Char → Bool) (env : Env) (key : String) :
    Unit → String × error :=
  fun _ =>
    match env key with
    | none => ("", some (Quote printTable key ++ " must not be empty"))
    | some value =>
      if value = "" then ("", some (Quote printTable key ++ " must not be empty"))
      else (value, none)

/-! ### `time` and `strconv.FormatInt` -/

/-- The value an `int64` holds after an operation whose exact result is `x`
(two's complement wrap-around). -/
def wrap64 (x : Int) : Int := (x + 9223372036854775808) % 18446744073709551616 - 9223372036854775808

/-- Go `strconv.FormatInt(i, 10)`. -/
def FormatInt10 (i : Int) : String :=
  if i < 0 then "-" ++ Nat.repr i.natAbs else Nat.repr i.natAbs

namespace time

/-- Seconds from January 1 of year 1 to the Unix epoch. -/
def unixToInternal : Int := 62135596800

def internalToUnix : Int := -unixToInternal

/-- The wall-clock reading of a Go `time.Time`: `sec` is what `t.sec()` returns (seconds
since January 1 of year 1, an `int64`) and `nsec` what `t.nsec()` returns (`0` to
`999999999`). -/
structure Time where
  sec : Int
  nsec : Int
  deriving DecidableEq, Repr

/-- Go `unixTime`. -/
def unixTime (sec nsec : Int) : Time := { sec := wrap64 (sec + unixToInternal), nsec := nsec }

/-- Go `time.Unix`. -/
def Unix (sec nsec : Int) : Time :=
  if nsec < 0 ∨ nsec ≥ 1000000000 then
    let n := nsec.tdiv 1000000000
    let sec1 := wrap64 (sec + n)
    let nsec1 := wrap64 (nsec - wrap64 (n * 1000000000))
    if nsec1 < 0 then unixTime (wrap64 (sec1 - 1)) (wrap64 (nsec1 + 1000000000))
    else unixTime sec1 nsec1
  else unixTime sec nsec

/-- Go `time.UnixMilli`. -/
def UnixMilli (msec : Int) : Time :=
  Unix (msec.tdiv 1000) (wrap64 (msec.tmod 1000 * 1000000))

/-- Go `(*Time).unixSec`. -/
def Time.unixSec (t : Time) : Int := wrap64 (t.sec + internalToUnix)

/-- Go `Time.UnixMilli`. -/
def Time.UnixMilli (t : Time) : Int :=
  wrap64 (wrap64 (t.unixSec * 1000) + t.nsec.tdiv 1000000)

/-- Go `Time.After`, for operands that do not both carry a monotonic clock reading. -/
def Time.After (t u : Time) : Bool :=
  t.sec > u.sec || (t.sec == u.sec && t.nsec > u.nsec)

/-- Go `Time.Before`, for operands that do not both carry a monotonic clock reading. -/
def Time.Before (t u : Time) : Bool :=
  t.sec < u.sec || (t.sec == u.sec && t.nsec < u.nsec)

end time

/-! ## The Dynatrace API client, as far as the plugin touches it -/

namespace dynatrace

/-- Go `dynatrace.APIKey`. -/
structure APIKey where
  Key : String
  Prefix : String
  deriving DecidableEq, Repr

/-- The request context the plugin builds in `SetConfig`: `context.Background()` with the
values stored under `ContextServerVariables` and `ContextAPIKeys`. -/
structure Context where
  ServerVariables : List (String × String)
  APIKeys : List (String × APIKey)
  deriving DecidableEq, Repr

/-- Go `dynatrace.Configuration`: the field the plugin sets (`NewConfiguration` leaves it
empty; its other fields are defaults the plugin never touches). -/
structure Configuration where
  Scheme : String
  deriving DecidableEq, Repr

/-- Go `dynatrace.NewConfiguration`. -/
def NewConfiguration : Configuration := { Scheme := "" }

/-- Go `dynatrace.APIClient`. -/
structure APIClient where
  cfg : Configuration
  deriving DecidableEq, Repr

/-- Go `dynatrace.NewAPIClient`. -/
def NewAPIClient (cfg : Configuration) : APIClient := { cfg := cfg }

end dynatrace

/-! ## `plugin/plugin.go`: configuration -/

/-- A Go `map[string]string`: `none` is the nil map, `some f` a map holding `f k` under `k`. -/
abbrev GoMap := Option (String → Option String)

/-- The Go expression `m[k]`: the zero value `""` when the key is absent or the map is nil. -/
def GoMap.index (m : GoMap) (k : String) : String :=
  match m with
  | none => ""
  | some f => (f k).getD ""

/-- The Go statement `m[k] = v`: a panic (`none`) on the nil map. -/
def GoMap.assign (m : GoMap) (k v : String) : Option GoMap :=
  match m with
  | none => none
  | some f => some (some (fun j => if j = k then some v else f j))

def configTenantURLKey : String := "tenant_url"

def configApiTokenKey : String := "api_token"

def envTenantUrlKey : String := "DYNATRACE_TENANT_URL"

def envApiTokenKey : String := "DYNATRACE_API_TOKEN"

/-- Go `APMPlugin`: `client` and `clientCtx` are `none` while they are nil. The logger is
the host's and is not part of the state; what the plugin logs is recorded in the result of
the call that logs. -/
structure APMPlugin where
  client : Option dynatrace.APIClient
  clientCtx : Option dynatrace.Context
  config : GoMap

/-- Go `NewDynatracePlugin`: a plugin with nothing but its logger set. -/
def NewDynatracePlugin : APMPlugin := { client := none, clientCtx := none, config := none }

/-- Go `(*APMPlugin).SetConfig`: the plugin after the call and the error returned, or `none`
when the call panics. -/
def SetConfig (printTable : Char → Bool) (env : Env) (p : APMPlugin) (config : GoMap) :
    Option (APMPlugin × error) :=
  let p0 : APMPlugin := { p with config := config }
  match ValueOrFallback (p0.config.index configTenantURLKey)
      (FallbackFromEnv printTable env envTenantUrlKey) with
  | (_, some err) => some (p0, some err)
  | (tu, none) =>
    match p0.config.assign configTenantURLKey tu with
    | none => none
    | some c1 =>
      let p1 : APMPlugin := { p0 with config := c1 }
      match ValueOrFallback (p1.config.index configApiTokenKey)
          (FallbackFromEnv printTable env envApiTokenKey) with
      | (_, some err) => some (p1, some err)
      | (token, none) =>
        match p1.config.assign configApiTokenKey token with
        | none => none
        | some c2 =>
          let p2 : APMPlugin := { p1 with config := c2 }
          match url.Parse (p2.config.index configTenantURLKey) with
          | none => some (p2, some (Quote printTable configTenantURLKey ++ " is not a valid URL"))
          | some tenantUrl =>
            let ctx : dynatrace.Context :=
              { ServerVariables := [("name", tenantUrl.Host)]
                APIKeys := [("Api-Token",
                  { Prefix := "Api-Token", Key := p2.config.index configApiTokenKey })] }
            let configuration : dynatrace.Configuration :=
              { dynatrace.NewConfiguration with Scheme := tenantUrl.Scheme }
            some ({ p2 with clientCtx := some ctx,
                            client := some (dynatrace.NewAPIClient configuration) }, none)

/-! ## `plugin/plugin.go`: queries -/

namespace sdk

/-- Go `sdk.TimeRange`. -/
structure TimeRange where
  From : time.Time
  To : time.Time
  deriving DecidableEq, Repr

/-- Go `sdk.TimestampedMetric`. -/
structure TimestampedMetric (V : Type) where
  Timestamp : time.Time
  Value : V
  deriving DecidableEq, Repr

/-- Go `sdk.TimestampedMetrics`. -/
abbrev TimestampedMetrics (V : Type) := List (TimestampedMetric V)

end sdk

namespace dynatrace

/-- Go `dynatrace.MetricSeries`: both arrays are optional in the JSON body. -/
structure MetricSeries (V : Type) where
  Timestamps : Option (List Int)
  Values : Option (List V)
  deriving DecidableEq, Repr

/-- Go `(*MetricSeries).GetTimestamps`. -/
def MetricSeries.GetTimestamps {V : Type} (o : MetricSeries V) : List Int :=
  o.Timestamps.getD []

/-- Go `(*MetricSeries).GetValues`. -/
def MetricSeries.GetValues {V : Type} (o : MetricSeries V) : List V :=
  o.Values.getD []

/-- Go `dynatrace.MetricSeriesCollection`, a result group. -/
structure MetricSeriesCollection (V : Type) where
  Data : Option (List (MetricSeries V))
  deriving DecidableEq, Repr

/-- Go `(*MetricSeriesCollection).GetDataOk`: `none` when `ok` is false. -/
def MetricSeriesCollection.GetDataOk {V : Type} (o : MetricSeriesCollection V) :
    Option (List (MetricSeries V)) :=
  o.Data

/-- Go `dynatrace.MetricData`, the body of a successful answer. -/
structure MetricData (V : Type) where
  Result : Option (List (MetricSeriesCollection V))
  deriving DecidableEq, Repr

/-- Go `(*MetricData).GetResult`. -/
def MetricData.GetResult {V : Type} (o : MetricData V) : List (MetricSeriesCollection V) :=
  o.Result.getD []

/-- What the plugin puts into `MetricsApi.Query(ctx)` before `Execute`; `Timeout` is the
duration given to `context.WithTimeout`, in nanoseconds. -/
structure ApiQueryRequest where
  ctx : Context
  Timeout : Int
  MetricSelector : String
  From : String
  To : String
  Resolution : String
  deriving DecidableEq, Repr

/-- The `*http.Response` of the client, as far as the plugin reads it. -/
structure Response where
  StatusCode : Int
  deriving DecidableEq, Repr

/-- The three values `Execute` returns: the decoded body, the HTTP response (`none` when
nil, as after a transport failure) and the error. -/
structure ExecuteResult (V : Type) where
  qr : MetricData V
  res : Option Response
  err : error

/-- The backend as the plugin sees it: the `Execute` of the client for a request. -/
abbrev Backend (V : Type) := APIClient → ApiQueryRequest → ExecuteResult V

end dynatrace

def StatusTooManyRequests : Int := 429

/-- What `QueryMultiple` returns (`results` and `err`) and what it logs on the way
(`warnings`, the messages given to `logger.Warn`). -/
structure QueryMultipleReturn (V : Type) where
  results : List (sdk.TimestampedMetrics V)
  err : error
  warnings : List String
  deriving DecidableEq, Repr

/-- What `Query` returns. -/
structure QueryReturn (V : Type) where
  series : sdk.TimestampedMetrics V
  err : error
  deriving DecidableEq, Repr

/-- The request of `QueryMultiple` (lines 114 to 121). -/
def queryRequest (ctx : dynatrace.Context) (q : String) (r : sdk.TimeRange) :
    dynatrace.ApiQueryRequest :=
  { ctx := ctx
    Timeout := 10 * 1000000000
    MetricSelector := q
    From := FormatInt10 r.From.UnixMilli
    To := FormatInt10 r.To.UnixMilli
    Resolution := "1m" }

/-- The innermost loop of `QueryMultiple`, `for i, ts := range s.GetTimestamps()`, from index
`i` on: `result` with one point appended per timestamp; `none` is the panic of `values[i]`
out of range. -/
def pointsLoop {V : Type} (values : List V) :
    Nat → List Int → sdk.TimestampedMetrics V → Option (sdk.TimestampedMetrics V)
  | _, [], result => some result
  | i, ts :: rest, result =>
    match values[i]? with
    | none => none
    | some v => pointsLoop values (i + 1) rest (result ++ [{ Timestamp := time.UnixMilli ts, Value := v }])

/-- The loop `for _, s := range *series` of `QueryMultiple`: `result` is declared outside
of it and carried from one series to the next. -/
def seriesLoop {V : Type} :
    List (dynatrace.MetricSeries V) → sdk.TimestampedMetrics V →
      List (sdk.TimestampedMetrics V) → Option (List (sdk.TimestampedMetrics V))
  | [], _, results => some results
  | s :: rest, result, results =>
    match pointsLoop s.GetValues 0 s.GetTimestamps result with
    | none => none
    | some result1 => seriesLoop rest result1 (results ++ [result1])

/-- The loop `for _, c := range collections` of `QueryMultiple`. -/
def collectionsLoop {V : Type} :
    List (dynatrace.MetricSeriesCollection V) → List (sdk.TimestampedMetrics V) →
      Option (List (sdk.TimestampedMetrics V))
  | [], results => some results
  | c :: rest, results =>
    match c.GetDataOk with
    | none => collectionsLoop rest results
    | some series =>
      match seriesLoop series [] results with
      | none => none
      | some results1 => collectionsLoop rest results1

/-- Go `(*APMPlugin).QueryMultiple`; `none` is a panic (a plugin that was never configured,
or a data series with fewer values than timestamps). -/
def QueryMultiple {V : Type} (execute : dynatrace.Backend V) (p : APMPlugin) (q : String)
    (r : sdk.TimeRange) : Option (QueryMultipleReturn V) :=
  match p.clientCtx, p.client with
  | some clientCtx, some client =>
    let out := execute client (queryRequest clientCtx q r)
    match out.err with
    | some err =>
      if (out.res.map (fun res => res.StatusCode)) = some StatusTooManyRequests then
        some { results := [], warnings := []
               err := some "metrics query rate limited by dynatrace, wait and retry" }
      else
        some { results := [], warnings := []
               err := some ("error querying metrics from dynatrace: " ++ err) }
    | none =>
      let collections := out.qr.GetResult
      if collections.length = 0 then
        some { results := [], err := none
               warnings := ["empty metrics response from dynatrace, try a wider query window"] }
      else
        match collectionsLoop collections [] with
        | none => none
        | some results =>
          some { results := results, err := none
                 warnings := if results.length = 0 then
                   ["no data points found in the metrics response from dynatrace, " ++
                    "try a wider query window"] else [] }
  | _, _ => none

/-- Go `(*APMPlugin).Query`. -/
def Query {V : Type} (execute : dynatrace.Backend V) (p : APMPlugin) (q : String)
    (r : sdk.TimeRange) : Option (QueryReturn V) :=
  match QueryMultiple execute p q r with
  | none => none
  | some m =>
    match m.err with
    | some err => some { series := [], err := some err }
    | none =>
      match m.results with
      | [] => some { series := [], err := none }
      | [m0] => some { series := m0, err := none }
      | _ :: _ :: _ =>
        some { series := [],
               err := some ("query returned data for " ++ Nat.repr m.results.length ++
                 " time series, only 1 is expected") }

/-! ## Notions of the specification, and inputs for the examples -/

/-- The positional zip of a data series' own timestamps and values: element `i` is
`(time.UnixMilli(timestamps[i]), values[i])`. -/
def zipSeries {V : Type} (s : dynatrace.MetricSeries V) : sdk.TimestampedMetrics V :=
  List.zipWith (fun ts v => { Timestamp := time.UnixMilli ts, Value := v })
    s.GetTimestamps s.GetValues

/-- The number of data series found in the result groups (a group without a data array has
none). -/
def countSeries {V : Type} (collections : List (dynatrace.MetricSeriesCollection V)) : Nat :=
  (collections.map (fun c => (c.Data.getD []).length)).sum

/-- The text of the rate-limit error. -/
def rateLimitedMessage : String := "metrics query rate limited by dynatrace, wait and retry"

/-- The text of the query-failed error for an underlying cause. -/
def queryFailedMessage (cause : String) : String :=
  "error querying metrics from dynatrace: " ++ cause

/-- The text of the multiple-series error for a count. -/
def multipleSeriesMessage (n : Nat) : String :=
  "query returned data for " ++ Nat.repr n ++ " time series, only 1 is expected"

/-- A plugin as `SetConfig` leaves it for `tenant_url = "https://stub.example"` and
`api_token = "tok-123"`. -/
def configuredPlugin : APMPlugin :=
  { client := some (dynatrace.NewAPIClient { Scheme := "https" })
    clientCtx := some { ServerVariables := [("name", "stub.example")]
                        APIKeys := [("Api-Token", { Prefix := "Api-Token", Key := "tok-123" })] }
    config := some (fun k => if k = "api_token" then some "tok-123"
      else if k = "tenant_url" then some "https://stub.example" else none) }

/-- The time range of the test `TestAPMPlugin_Query`. -/
def testRange : sdk.TimeRange :=
  { From := time.Unix 1681041120 0, To := time.Unix 1681041720 0 }

/-- Whether an integer is a value of `int64`. -/
abbrev isInt64 (x : Int) : Prop := -9223372036854775808 ≤ x ∧ x ≤ 9223372036854775807

/-- A wall-clock reading that a `time.Time` can hold: the seconds are an `int64` and the
nanoseconds lie between `0` and `999999999`. -/
abbrev validTime (t : time.Time) : Prop := isInt64 t.sec ∧ 0 ≤ t.nsec ∧ t.nsec ≤ 999999999

/-- The time of a reading in epoch milliseconds, exactly (as an unbounded integer): the whole
milliseconds from the Unix epoch to it. -/
def epochMilli (t : time.Time) : Int :=
  (t.sec - time.unixToInternal) * 1000 + t.nsec / 1000000

/-- The reading `d` whole seconds after `t` (before it when `d` is negative). -/
def shiftSeconds (t : time.Time) (d : Int) : time.Time := { sec := t.sec + d, nsec := t.nsec }

/-- A time range that starts and ends 9223372036854776 seconds after the Unix epoch. -/
def farRange : sdk.TimeRange :=
  { From := time.Unix 9223372036854776 0, To := time.Unix 9223372036854776 0 }

/-- The request context of `configuredPlugin`. -/
def stubContext : dynatrace.Context :=
  { ServerVariables := [("name", "stub.example")]
    APIKeys := [("Api-Token", { Prefix := "Api-Token", Key := "tok-123" })] }

/-- A data series of one point. -/
def seriesA: dynatrace.MetricSeries Int := { Timestamps := some [1000], Values := some [10] }

/-- Another data series of one point. -/
def seriesB : dynatrace.MetricSeries Int := { Timestamps := some [2000], Values := some [20] }

/-- A data series of two points. -/
def seriesC : dynatrace.MetricSeries Int :=
  { Timestamps := some [1000, 2000], Values := some [10, 20] }

/-- A data series without points. -/
def seriesEmpty : dynatrace.MetricSeries Int := { Timestamps := some [], Values := some [] }

/-- The point of `seriesA`. -/
def pointA : sdk.TimestampedMetric Int := { Timestamp := time.UnixMilli 1000, Value := 10 }

/-- The point of `seriesB`. -/
def pointB : sdk.TimestampedMetric Int := { Timestamp := time.UnixMilli 2000, Value := 20 }

/-- A response body with the given result groups. -/
def bodyOf (groups : List (List (dynatrace.MetricSeries Int))) : dynatrace.MetricData Int :=
  { Result := some (groups.map (fun g => { Data := some g })) }

/-- A backend that answers every request with status 200 and the given body. -/
def answering {V : Type} (body : dynatrace.MetricData V) : dynatrace.Backend V :=
  fun _ _ => { qr := body, res := some { StatusCode := 200 }, err := none }

/-- A backend that fails every request with the given response and cause. -/
def failing (res : Option dynatrace.Response) (cause : String) : dynatrace.Backend Int :=
  fun _ _ => { qr := { Result := none }, res := res, err := some cause }

/-! # Theorems -/

/-! ## `%q` and the configuration resolver -/

theorem appendEscapedRune_plain (printTable : Char → Bool) (buf : List Char) (c : Char)
    (h : 0x20 ≤ c.toNat ∧ c.toNat < 0x7f ∧ c ≠ dquote ∧ c ≠ backslash) :
    appendEscapedRune printTable buf c = buf ++ [c] := by
  obtain ⟨h1, h2, h3, h4⟩ := h
  have hp : IsPrint printTable c = true := by
    unfold IsPrint
    have : c.toNat ≤ 0xFF := by omega
    simp [this, h1, h2]
  unfold appendEscapedRune
  simp [h3, h4, hp]

theorem appendQuotedLoop_plain (printTable : Char → Bool) (s : List Char) :
    ∀ buf : List Char,
      (∀ c ∈ s, 0x20 ≤ c.toNat ∧ c.toNat < 0x7f ∧ c ≠ dquote ∧ c ≠ backslash) →
      appendQuotedLoop printTable buf s = buf ++ s := by
  induction s with
  | nil => intro buf _; simp [appendQuotedLoop]
  | cons c s ih =>
    intro buf h
    have hc := h c (List.mem_cons_self c s)
    have hs : ∀ d ∈ s, 0x20 ≤ d.toNat ∧ d.toNat < 0x7f ∧ d ≠ dquote ∧ d ≠ backslash :=
      fun d hd => h d (List.mem_cons_of_mem c hd)
    simp [appendQuotedLoop, appendEscapedRune_plain printTable buf c hc, ih _ hs]

theorem Quote_plain (printTable : Char → Bool) (k : String)
    (h : ∀ c ∈ k.data, 0x20 ≤ c.toNat ∧ c.toNat < 0x7f ∧ c ≠ dquote ∧ c ≠ backslash) :
    Quote printTable k = "\"" ++ k ++ "\"" := by
  unfold Quote
  rw [appendQuotedLoop_plain printTable k.data [dquote] h]
  apply String.ext
  simp [String.data_append]
  rfl

theorem Quote_envTenantUrlKey (printTable : Char → Bool) :
    Quote printTable envTenantUrlKey = "\"DYNATRACE_TENANT_URL\"" := by
  rw [Quote_plain printTable envTenantUrlKey (by decide)]
  decide

theorem Quote_envApiTokenKey (printTable : Char → Bool) :
    Quote printTable envApiTokenKey = "\"DYNATRACE_API_TOKEN\"" := by
  rw [Quote_plain printTable envApiTokenKey (by decide)]
  decide

theorem Quote_configTenantURLKey (printTable : Char → Bool) :
    Quote printTable configTenantURLKey = "\"tenant_url\"" := by
  rw [Quote_plain printTable configTenantURLKey (by decide)]
  decide

theorem FallbackFromEnv_ok_ne_empty (printTable : Char → Bool) (env : Env) (k x : String)
    (h : FallbackFromEnv printTable env k () = (x, none)) : x ≠ "" := by
  unfold FallbackFromEnv at h
  cases hk : env k with
  | none => simp [hk] at h
  | some value =>
    by_cases hv : value = ""
    · simp [hk, hv] at h
    · simp [hk, hv] at h
      rw [← h]; exact hv

theorem ValueOrFallback_ok_ne_empty (printTable : Char → Bool) (env : Env) (v k x : String)
    (h : ValueOrFallback v (FallbackFromEnv printTable env k) = (x, none)) : x ≠ "" := by
  unfold ValueOrFallback at h
  by_cases hv : v = ""
  · simp [hv] at h
    exact FallbackFromEnv_ok_ne_empty printTable env k x h
  · simp [hv] at h
    rw [← h]; exact hv

theorem SetConfig_missing_endpoint (printTable : Char → Bool) (env : Env) (p : APMPlugin)
    (config : GoMap) (h1 : config.index configTenantURLKey = "")
    (h2 : env envTenantUrlKey = none ∨ env envTenantUrlKey = some "") :
    SetConfig printTable env p config
      = some ({ p with config := config }, some "\"DYNATRACE_TENANT_URL\" must not be empty") := by
  have hq := Quote_envTenantUrlKey printTable
  have hf : FallbackFromEnv printTable env envTenantUrlKey ()
      = ("", some ("\"DYNATRACE_TENANT_URL\"" ++ " must not be empty")) := by
    rcases h2 with h | h <;> simp [FallbackFromEnv, h, hq]
  unfold SetConfig
  simp only [h1, ValueOrFallback, hf]
  rfl

theorem index_assign_same (f : String → Option String) (k v : String) :
    GoMap.index (some (fun j => if j = k then some v else f j)) k = v := by
  simp [GoMap.index]

theorem index_assign_other (f : String → Option String) (k j v : String) (h : j ≠ k) :
    GoMap.index (some (fun i => if i = k then some v else f i)) j = GoMap.index (some f) j := by
  simp [GoMap.index, h]

theorem SetConfig_resolved (printTable : Char → Bool) (env : Env) (p : APMPlugin)
    (f : String → Option String) (tu tok : String)
    (hu : ValueOrFallback (GoMap.index (some f) configTenantURLKey)
      (FallbackFromEnv printTable env envTenantUrlKey) = (tu, none))
    (ht : ValueOrFallback (GoMap.index (some f) configApiTokenKey)
      (FallbackFromEnv printTable env envApiTokenKey) = (tok, none)) :
    ∃ c2 : GoMap, c2.index configTenantURLKey = tu ∧ c2.index configApiTokenKey = tok ∧
      SetConfig printTable env p (some f) =
        match url.Parse tu with
        | none => some ({ p with config := c2 }, some "\"tenant_url\" is not a valid URL")
        | some tenantUrl =>
          some ({ config := c2
                  clientCtx := some { ServerVariables := [("name", tenantUrl.Host)]
                                      APIKeys := [("Api-Token",
                                        { Prefix := "Api-Token", Key := tok })] }
                  client := some (dynatrace.NewAPIClient { Scheme := tenantUrl.Scheme }) },
                none) := by
  have hne : configApiTokenKey ≠ configTenantURLKey := by decide
  have hne2 : configTenantURLKey ≠ configApiTokenKey := by decide
  refine ⟨some (fun j => if j = configApiTokenKey then some tok
      else if j = configTenantURLKey then some tu else f j), ?_, ?_, ?_⟩
  · rw [index_assign_other _ _ _ _ hne2, index_assign_same]
  · rw [index_assign_same]
  · unfold SetConfig
    simp only [hu, GoMap.assign]
    rw [index_assign_other f _ _ _ hne]
    simp only [ht]
    rw [index_assign_other _ _ _ _ hne2, index_assign_same, index_assign_same]
    cases url.Parse tu with
    | none => simp [Quote_configTenantURLKey]
    | some u => simp [dynatrace.NewConfiguration]

/-- C8. `ValueOrFallback(v, FallbackFromEnv(k))` returns `v` and no error when `v` is not
empty, whatever the environment; otherwise the value of `k` in the environment and no error
when that is set and not empty; otherwise the empty string and the error `%q must not be
empty` for `k`, which for a name of plain printable ASCII is the name between double quotes.
For every fallback `f`, `ValueOrFallback(v, f)` is `(v, nil)` when `v` is not empty and
`f()` when it is. -/
theorem ValueOrFallback_FallbackFromEnv_spec (printTable : Char → Bool) (env : Env) (v k : String) :
    (v ≠ "" → ValueOrFallback v (FallbackFromEnv printTable env k) = (v, none)) ∧
    (v = "" → ∀ x, env k = some x → x ≠ "" →
        ValueOrFallback v (FallbackFromEnv printTable env k) = (x, none)) ∧
    (v = "" → (env k = none ∨ env k = some "") →
        ValueOrFallback v (FallbackFromEnv printTable env k)
          = ("", some (Quote printTable k ++ " must not be empty"))) ∧
    ((∀ c ∈ k.data, 0x20 ≤ c.toNat ∧ c.toNat < 0x7f ∧ c ≠ dquote ∧ c ≠ backslash) →
        Quote printTable k = "\"" ++ k ++ "\"") ∧
    (∀ f : Unit → String × error,
        (v ≠ "" → ValueOrFallback v f = (v, none)) ∧ (v = "" → ValueOrFallback v f = f ())) := by
  refine ⟨?_, ?_, ?_, Quote_plain printTable k, ?_⟩
  · intro hv
    simp [ValueOrFallback, hv]
  · intro hv x hx hne
    simp [ValueOrFallback, hv, FallbackFromEnv, hx, hne]
  · intro hv h
    rcases h with h | h <;> simp [ValueOrFallback, hv, FallbackFromEnv, h]
  · intro f
    constructor
    · intro hv; simp [ValueOrFallback, hv]
    · intro hv; simp [ValueOrFallback, hv]

theorem SetConfig_missing_credential (printTable : Char → Bool) (env : Env) (p : APMPlugin)
    (f : String → Option String) (tu : String)
    (hu : ValueOrFallback (GoMap.index (some f) configTenantURLKey)
      (FallbackFromEnv printTable env envTenantUrlKey) = (tu, none))
    (h1 : GoMap.index (some f) configApiTokenKey = "")
    (h2 : env envApiTokenKey = none ∨ env envApiTokenKey = some "") :
    ∃ p1 : APMPlugin, SetConfig printTable env p (some f)
      = some (p1, some "\"DYNATRACE_API_TOKEN\" must not be empty") := by
  have hq := Quote_envApiTokenKey printTable
  have hne : configApiTokenKey ≠ configTenantURLKey := by decide
  have hf : FallbackFromEnv printTable env envApiTokenKey ()
      = ("", some ("\"DYNATRACE_API_TOKEN\"" ++ " must not be empty")) := by
    rcases h2 with h | h <;> simp [FallbackFromEnv, h, hq]
  unfold SetConfig
  simp only [hu, GoMap.assign]
  rw [index_assign_other f _ _ _ hne, h1]
  simp only [ValueOrFallback, hf]
  exact ⟨_, rfl⟩

theorem SetConfig_nil_map_panics (printTable : Char → Bool) (env : Env) (p : APMPlugin)
    (x : String) (hx : env envTenantUrlKey = some x) (hne : x ≠ "") :
    SetConfig printTable env p none = none := by
  unfold SetConfig
  simp [GoMap.index, ValueOrFallback, FallbackFromEnv, hx, hne, GoMap.assign]

/-- C6, at the failing input. With the nil map for a configuration and the endpoint taken
from `DYNATRACE_TENANT_URL` (the credential set nowhere), `SetConfig` does not return the
error that names `DYNATRACE_API_TOKEN`: the assignment `p.config[tenant_url] = tu` that
precedes the resolution of the credential panics on the nil map. -/
theorem SetConfig_nil_map_endpoint_from_env :
    SetConfig (fun _ => false)
      (fun k => if k = "DYNATRACE_TENANT_URL" then some "https://abc123456.live.dynatrace.com"
        else none)
      NewDynatracePlugin none = none ∧
    SetConfig (fun _ => false)
      (fun k => if k = "DYNATRACE_TENANT_URL" then some "https://abc123456.live.dynatrace.com"
        else none)
      NewDynatracePlugin none
      ≠ some ({ NewDynatracePlugin with config := none },
          some "\"DYNATRACE_API_TOKEN\" must not be empty") := by
  have h : SetConfig (fun _ => false)
      (fun k => if k = "DYNATRACE_TENANT_URL" then some "https://abc123456.live.dynatrace.com"
        else none)
      NewDynatracePlugin none = none := by rfl
  exact ⟨h, by rw [h]; exact fun e => Option.noConfusion e⟩

/-- C7, as amended. For every configuration map whose `tenant_url` and `api_token` are both
non-empty strings and whose `tenant_url` is accepted by `url.Parse`, and for every
environment, `SetConfig` returns no error and leaves the plugin with a non-nil client (whose
scheme is that of the URL). -/
theorem SetConfig_explicit_settings (printTable : Char → Bool) (env : Env) (p : APMPlugin)
    (f : String → Option String) (tu tok : String) (u : url.URL)
    (h1 : f configTenantURLKey = some tu) (h2 : f configApiTokenKey = some tok)
    (htu : tu ≠ "") (htok : tok ≠ "") (hparse : url.Parse tu = some u) :
    ∃ p1 : APMPlugin, SetConfig printTable env p (some f) = some (p1, none) ∧
      p1.client ≠ none ∧
      p1.client = some (dynatrace.NewAPIClient { Scheme := u.Scheme }) := by
  have hu : ValueOrFallback (GoMap.index (some f) configTenantURLKey)
      (FallbackFromEnv printTable env envTenantUrlKey) = (tu, none) := by
    simp [GoMap.index, h1, ValueOrFallback, htu]
  have ht : ValueOrFallback (GoMap.index (some f) configApiTokenKey)
      (FallbackFromEnv printTable env envApiTokenKey) = (tok, none) := by
    simp [GoMap.index, h2, ValueOrFallback, htok]
  obtain ⟨c2, _, _, hset⟩ := SetConfig_resolved printTable env p f tu tok hu ht
  rw [hparse] at hset
  exact ⟨_, hset, by simp, rfl⟩

/-- C7, witness: the configuration of the test "all required config parameters are set". -/
theorem SetConfig_explicit_settings_witness :
    ∃ p1 : APMPlugin,
      SetConfig (fun _ => false) (fun _ => none) NewDynatracePlugin
        (some (fun k => if k = "tenant_url" then some "https://abc123456.live.dynatrace.com"
          else if k = "api_token" then
            some "dt0s01.a1b2c3d4e5f6g7h8i9j0k1l2m3n4o5p6q7r8s9t0u1b2w3x4y5z"
          else none)) = some (p1, none) ∧
      p1.client ≠ none ∧
      p1.client = some (dynatrace.NewAPIClient { Scheme := "https" }) :=
  SetConfig_explicit_settings (fun _ => false) (fun _ => none) NewDynatracePlugin
    (fun k => if k = "tenant_url" then some "https://abc123456.live.dynatrace.com"
      else if k = "api_token" then
        some "dt0s01.a1b2c3d4e5f6g7h8i9j0k1l2m3n4o5p6q7r8s9t0u1b2w3x4y5z"
      else none)
    "https://abc123456.live.dynatrace.com"
    "dt0s01.a1b2c3d4e5f6g7h8i9j0k1l2m3n4o5p6q7r8s9t0u1b2w3x4y5z"
    { Scheme := "https", Host := "abc123456.live.dynatrace.com" }
    (by decide) (by decide) (by decide) (by decide) (by decide)

/-- C7, counterexample. The configuration `tenant_url = ":"`, `api_token = "x"` has both
settings non-empty, and `SetConfig` returns the error `"tenant_url" is not a valid URL`
and leaves the client nil: `url.Parse` rejects a URL that starts with a colon. -/
theorem SetConfig_explicit_settings_rejected :
    (":" : String) ≠ "" ∧ ("x" : String) ≠ "" ∧
    (SetConfig (fun _ => false) (fun _ => none) NewDynatracePlugin
      (some (fun k => if k = "tenant_url" then some ":"
        else if k = "api_token" then some "x" else none))).map
        (fun out => (out.2, out.1.client))
      = some (some "\"tenant_url\" is not a valid URL", none) := by
  decide

/-- C9, as amended. For every non-nil configuration map and environment in which both the
endpoint and the credential resolve, the two resolved values are not empty and `SetConfig`
succeeds exactly when `url.Parse` accepts the resolved endpoint: a value that `url.Parse`
rejects makes it fail with the error `"tenant_url" is not a valid URL`, and a value it
accepts makes it succeed (a scheme and a host are not asked for), after which the stored
settings are the two resolved values, the client has the scheme of the parsed URL and the
request context its host and the credential. -/
theorem SetConfig_valid_URL (printTable : Char → Bool) (env : Env) (p : APMPlugin)
    (f : String → Option String) (tu tok : String)
    (hu : ValueOrFallback (GoMap.index (some f) configTenantURLKey)
      (FallbackFromEnv printTable env envTenantUrlKey) = (tu, none))
    (ht : ValueOrFallback (GoMap.index (some f) configApiTokenKey)
      (FallbackFromEnv printTable env envApiTokenKey) = (tok, none)) :
    tu ≠ "" ∧ tok ≠ "" ∧
    (url.Parse tu = none →
      ∃ p1 : APMPlugin, SetConfig printTable env p (some f)
        = some (p1, some "\"tenant_url\" is not a valid URL")) ∧
    (∀ u : url.URL, url.Parse tu = some u →
      ∃ p1 : APMPlugin, SetConfig printTable env p (some f) = some (p1, none) ∧
        p1.config.index configTenantURLKey = tu ∧
        p1.config.index configApiTokenKey = tok ∧
        p1.client = some (dynatrace.NewAPIClient { Scheme := u.Scheme }) ∧
        p1.clientCtx = some { ServerVariables := [("name", u.Host)]
                              APIKeys := [("Api-Token",
                                { Prefix := "Api-Token", Key := tok })] }) := by
  obtain ⟨c2, hc1, hc2, hset⟩ := SetConfig_resolved printTable env p f tu tok hu ht
  refine ⟨ValueOrFallback_ok_ne_empty printTable env _ _ tu hu,
    ValueOrFallback_ok_ne_empty printTable env _ _ tok ht, ?_, ?_⟩
  · intro hp
    rw [hp] at hset
    exact ⟨_, hset⟩
  · intro u hp
    rw [hp] at hset
    exact ⟨_, hset, hc1, hc2, rfl, rfl⟩

/-- C9, witness: the endpoint from the configuration map, the credential from the
environment. -/
theorem SetConfig_valid_URL_witness :
    ("http://127.0.0.1:4444" : String) ≠ "" ∧ ("tok-123" : String) ≠ "" ∧
    (url.Parse "http://127.0.0.1:4444" = none →
      ∃ p1 : APMPlugin,
        SetConfig (fun _ => false)
          (fun k => if k = "DYNATRACE_API_TOKEN" then some "tok-123" else none)
          NewDynatracePlugin
          (some (fun k => if k = "tenant_url" then some "http://127.0.0.1:4444" else none))
        = some (p1, some "\"tenant_url\" is not a valid URL")) ∧
    (∀ u : url.URL, url.Parse "http://127.0.0.1:4444" = some u →
      ∃ p1 : APMPlugin,
        SetConfig (fun _ => false)
          (fun k => if k = "DYNATRACE_API_TOKEN" then some "tok-123" else none)
          NewDynatracePlugin
          (some (fun k => if k = "tenant_url" then some "http://127.0.0.1:4444" else none))
        = some (p1, none) ∧
        p1.config.index configTenantURLKey = "http://127.0.0.1:4444" ∧
        p1.config.index configApiTokenKey = "tok-123" ∧
        p1.client = some (dynatrace.NewAPIClient { Scheme := u.Scheme }) ∧
        p1.clientCtx = some { ServerVariables := [("name", u.Host)]
                              APIKeys := [("Api-Token",
                                { Prefix := "Api-Token", Key := "tok-123" })] }) :=
  SetConfig_valid_URL (fun _ => false)
    (fun k => if k = "DYNATRACE_API_TOKEN" then some "tok-123" else none)
    NewDynatracePlugin
    (fun k => if k = "tenant_url" then some "http://127.0.0.1:4444" else none)
    "http://127.0.0.1:4444" "tok-123" (by decide) (by decide)

/-- C9, counterexample. The bare host name `example.com` has neither a scheme nor a host
for `url.Parse`, which takes it for a relative path; `SetConfig` returns no error, and the
client it stores has the empty scheme and the request context the empty host. -/
theorem SetConfig_accepts_bare_host_name :
    url.Parse "example.com" = some { Scheme := "", Host := "" } ∧
    (SetConfig (fun _ => false) (fun _ => none) NewDynatracePlugin
      (some (fun k => if k = "tenant_url" then some "example.com"
        else if k = "api_token" then some "x" else none))).map
        (fun out => (out.2, out.1.client, out.1.clientCtx))
      = some (none, some (dynatrace.NewAPIClient { Scheme := "" }),
          some { ServerVariables := [("name", "")]
                 APIKeys := [("Api-Token", { Prefix := "Api-Token", Key := "x" })] }) := by
  decide

/-! ## The reshaping loops of `QueryMultiple` -/

theorem pointsLoop_eq_zip {V : Type} (values : List V) (tss : List Int) :
    ∀ (i : Nat) (result : sdk.TimestampedMetrics V), i + tss.length ≤ values.length →
      pointsLoop values i tss result
        = some (result ++ List.zipWith
            (fun ts v => ({ Timestamp := time.UnixMilli ts, Value := v } : sdk.TimestampedMetric V))
            tss (values.drop i)) := by
  induction tss with
  | nil => intro i result _; simp [pointsLoop]
  | cons ts rest ih =>
    intro i result h
    have hi : i < values.length := by simp at h; omega
    have hrest : i + 1 + rest.length ≤ values.length := by simp at h; omega
    rw [pointsLoop, List.getElem?_eq_getElem hi]
    simp only
    rw [ih (i + 1) _ hrest, List.drop_eq_getElem_cons hi, List.zipWith_cons_cons,
      List.append_assoc]
    rfl

theorem seriesLoop_single {V : Type} (s : dynatrace.MetricSeries V)
    (results : List (sdk.TimestampedMetrics V))
    (h : s.GetTimestamps.length ≤ s.GetValues.length) :
    seriesLoop [s] [] results = some (results ++ [zipSeries s]) := by
  have hp := pointsLoop_eq_zip s.GetValues s.GetTimestamps 0 [] (by omega)
  simp [seriesLoop, hp, zipSeries]

theorem collectionsLoop_single_series {V : Type} (series : List (dynatrace.MetricSeries V)) :
    ∀ results : List (sdk.TimestampedMetrics V),
      (∀ s ∈ series, s.GetTimestamps.length = s.GetValues.length) →
      collectionsLoop (series.map (fun s => ({ Data := some [s] } : dynatrace.MetricSeriesCollection V)))
        results = some (results ++ series.map zipSeries) := by
  induction series with
  | nil => intro results _; simp [collectionsLoop]
  | cons s rest ih =>
    intro results h
    have hs := h s (List.mem_cons_self s rest)
    have hrest : ∀ t ∈ rest, t.GetTimestamps.length = t.GetValues.length :=
      fun t ht => h t (List.mem_cons_of_mem s ht)
    simp [collectionsLoop, dynatrace.MetricSeriesCollection.GetDataOk,
      seriesLoop_single s results (le_of_eq hs), ih _ hrest]

theorem collectionsLoop_no_data {V : Type} (collections : List (dynatrace.MetricSeriesCollection V)) :
    ∀ results : List (sdk.TimestampedMetrics V),
      (∀ c ∈ collections, c.GetDataOk = none) →
      collectionsLoop collections results = some results := by
  induction collections with
  | nil => intro results _; simp [collectionsLoop]
  | cons c rest ih =>
    intro results h
    have hc := h c (List.mem_cons_self c rest)
    have hrest : ∀ d ∈ rest, d.GetDataOk = none := fun d hd => h d (List.mem_cons_of_mem c hd)
    simp [collectionsLoop, hc, ih _ hrest]

theorem zipSeries_length {V : Type} (s : dynatrace.MetricSeries V)
    (h : s.GetTimestamps.length = s.GetValues.length) :
    (zipSeries s).length = s.GetTimestamps.length := by
  simp [zipSeries, h]

theorem zipSeries_timestamps {V : Type} (s : dynatrace.MetricSeries V)
    (h : s.GetTimestamps.length = s.GetValues.length) :
    (zipSeries s).map (fun m => m.Timestamp) = s.GetTimestamps.map time.UnixMilli := by
  unfold zipSeries
  generalize s.GetTimestamps = tss at h
  generalize s.GetValues = vs at h
  induction tss generalizing vs with
  | nil => simp
  | cons t rest ih =>
    cases vs with
    | nil => simp at h
    | cons v vs => simp at h; simp [ih vs h]

theorem zipSeries_values {V : Type} (s : dynatrace.MetricSeries V)
    (h : s.GetTimestamps.length = s.GetValues.length) :
    (zipSeries s).map (fun m => m.Value) = s.GetValues := by
  unfold zipSeries
  generalize s.GetTimestamps = tss at h
  generalize s.GetValues = vs at h
  induction tss generalizing vs with
  | nil => cases vs with
    | nil => simp
    | cons v vs => simp at h
  | cons t rest ih =>
    cases vs with
    | nil => simp at h
    | cons v vs => simp at h; simp [ih vs h]
/-! ## The error texts -/

theorem multipleSeriesMessage_head (n : Nat) :
    (multipleSeriesMessage n).data.head? = some 'q' := by
  simp [multipleSeriesMessage, String.data_append]

theorem queryFailedMessage_head (cause : String) :
    (queryFailedMessage cause).data.head? = some 'e' := by
  simp [queryFailedMessage, String.data_append]

theorem rateLimitedMessage_head : rateLimitedMessage.data.head? = some 'm' := by
  decide

theorem rateLimited_ne_queryFailed (cause : String) :
    rateLimitedMessage ≠ queryFailedMessage cause := by
  intro h
  have h1 := congrArg (fun s : String => s.data.head?) h
  simp only [rateLimitedMessage_head, queryFailedMessage_head] at h1
  exact absurd h1 (by decide)

theorem multipleSeries_ne_rateLimited (n : Nat) :
    multipleSeriesMessage n ≠ rateLimitedMessage := by
  intro h
  have h1 := congrArg (fun s : String => s.data.head?) h
  simp only [rateLimitedMessage_head, multipleSeriesMessage_head] at h1
  exact absurd h1 (by decide)

theorem multipleSeries_ne_queryFailed (n : Nat) (cause : String) :
    multipleSeriesMessage n ≠ queryFailedMessage cause := by
  intro h
  have h1 := congrArg (fun s : String => s.data.head?) h
  simp only [queryFailedMessage_head, multipleSeriesMessage_head] at h1
  exact absurd h1 (by decide)

/-- The errors of `QueryMultiple` are the rate-limit error and the query-failed error, and
it returns no series with either. -/
theorem QueryMultiple_error_form {V : Type} (execute : dynatrace.Backend V) (p : APMPlugin)
    (q : String) (r : sdk.TimeRange) (m : QueryMultipleReturn V) (e : String)
    (h : QueryMultiple execute p q r = some m) (he : m.err = some e) :
    m.results = [] ∧ (e = rateLimitedMessage ∨ ∃ cause, e = queryFailedMessage cause) := by
  unfold QueryMultiple at h
  split at h
  · rename_i clientCtx client _ _
    cases herr : (execute client (queryRequest clientCtx q r)).err with
    | some cause =>
      simp only [herr] at h
      split at h
      · simp at h
        subst h
        simp at he
        exact ⟨rfl, Or.inl (by rw [← he]; rfl)⟩
      · simp at h
        subst h
        simp at he
        exact ⟨rfl, Or.inr ⟨cause, by rw [← he]; rfl⟩⟩
    | none =>
      simp only [herr] at h
      split at h
      · simp at h
        subst h
        simp at he
      · split at h
        · simp at h
        · simp at h
          subst h
          simp at he
  · simp at h

/-- C3. `Query` is determined by `QueryMultiple` on the same selector and time range: it
panics when `QueryMultiple` does; when `QueryMultiple` fails it returns no series and the
same error; on zero series an empty series and no error; on exactly one series that series
and no error; on two or more no series and the error that states their number. Hence `Query`
fails with the multiple-series error exactly when `QueryMultiple` succeeded with more than
one series. -/
theorem Query_determined_by_QueryMultiple {V : Type} (execute : dynatrace.Backend V)
    (p : APMPlugin) (q : String) (r : sdk.TimeRange) :
    (QueryMultiple execute p q r = none → Query execute p q r = none) ∧
    ∀ m : QueryMultipleReturn V, QueryMultiple execute p q r = some m →
      (∀ e, m.err = some e → Query execute p q r = some { series := [], err := some e }) ∧
      (m.err = none → m.results.length = 0 →
        Query execute p q r = some { series := [], err := none }) ∧
      (m.err = none → ∀ s, m.results = [s] →
        Query execute p q r = some { series := s, err := none }) ∧
      (m.err = none → 2 ≤ m.results.length →
        Query execute p q r
          = some { series := [], err := some (multipleSeriesMessage m.results.length) }) ∧
      ((∃ out n, Query execute p q r = some out ∧ out.err = some (multipleSeriesMessage n))
        ↔ (m.err = none ∧ 2 ≤ m.results.length)) := by
  constructor
  · intro h
    simp [Query, h]
  · intro m h
    have h0 : ∀ e, m.err = some e → Query execute p q r = some { series := [], err := some e } := by
      intro e he
      simp [Query, h, he]
    have h1 : m.err = none → m.results.length = 0 →
        Query execute p q r = some { series := [], err := none } := by
      intro he hl
      have : m.results = [] := List.eq_nil_of_length_eq_zero hl
      simp [Query, h, he, this]
    have h2 : m.err = none → ∀ s, m.results = [s] →
        Query execute p q r = some { series := s, err := none } := by
      intro he s hs
      simp [Query, h, he, hs]
    have h3 : m.err = none → 2 ≤ m.results.length →
        Query execute p q r
          = some { series := [], err := some (multipleSeriesMessage m.results.length) } := by
      intro he hl
      cases hm : m.results with
      | nil => simp [hm] at hl
      | cons a t =>
        cases t with
        | nil => simp [hm] at hl
        | cons b t => simp [Query, h, he, hm, multipleSeriesMessage]
    refine ⟨h0, h1, h2, h3, ?_⟩
    constructor
    · rintro ⟨out, n, hq, ho⟩
      cases he : m.err with
      | some e =>
        rw [h0 e he] at hq
        have hout : out.err = some e := by
          have := Option.some.inj hq
          rw [← this]
        rw [hout] at ho
        have hen : e = multipleSeriesMessage n := Option.some.inj ho
        obtain ⟨_, hform⟩ := QueryMultiple_error_form execute p q r m e h he
        rcases hform with hf | ⟨cause, hf⟩
        · exact absurd (hen.symm.trans hf) (multipleSeries_ne_rateLimited n)
        · exact absurd (hen.symm.trans hf) (multipleSeries_ne_queryFailed n cause)
      | none =>
        refine ⟨rfl, ?_⟩
        by_contra hlt
        have hcases : m.results.length = 0 ∨ ∃ s, m.results = [s] := by
          cases hm : m.results with
          | nil => exact Or.inl rfl
          | cons a t =>
            cases t with
            | nil => exact Or.inr ⟨a, rfl⟩
            | cons b t => simp [hm] at hlt
        rcases hcases with hz | ⟨s, hs⟩
        · rw [h1 he hz] at hq
          have := Option.some.inj hq
          rw [← this] at ho
          simp at ho
        · rw [h2 he s hs] at hq
          have := Option.some.inj hq
          rw [← this] at ho
          simp at ho
    · rintro ⟨he, hl⟩
      exact ⟨_, m.results.length, h3 he hl, rfl⟩
/-! ## `QueryMultiple` and `Query` -/

/-- C1, at the failing input. One result group with two data series of one point each:
`QueryMultiple` returns one output series per data series, but the second output series is
not the zip of the second data series alone; it starts with the point of the first one,
because the variable `result` is declared outside the loop over the series of a group and
never emptied. -/
theorem QueryMultiple_two_series_in_one_group :
    QueryMultiple (answering (bodyOf [[seriesA, seriesB]])) configuredPlugin "q" testRange
      = some { results := [[pointA], [pointA, pointB]], err := none, warnings := [] } ∧
    zipSeries seriesA = [pointA] ∧
    zipSeries seriesB = [pointB] ∧
    [pointA, pointB] ≠ zipSeries seriesB := by
  decide

/-- C2, as amended. For every successful backend response with `N` result groups, each
holding exactly one data series with as many timestamps as values (`L_i` of each, `0`
allowed), `QueryMultiple` returns `N` series and no error, empty data series included: the
`i`-th returned series is the zip of the `i`-th data series, so it has `L_i` points, whose
timestamps and values are those of the data series in their order. -/
theorem QueryMultiple_one_series_per_group {V : Type} (execute : dynatrace.Backend V)
    (p : APMPlugin) (q : String) (r : sdk.TimeRange) (client : dynatrace.APIClient)
    (ctx : dynatrace.Context) (series : List (dynatrace.MetricSeries V))
    (hclient : p.client = some client) (hctx : p.clientCtx = some ctx)
    (herr : (execute client (queryRequest ctx q r)).err = none)
    (hres : (execute client (queryRequest ctx q r)).qr.GetResult
      = series.map (fun s => { Data := some [s] }))
    (hlen : ∀ s ∈ series, s.GetTimestamps.length = s.GetValues.length) :
    ∃ m : QueryMultipleReturn V, QueryMultiple execute p q r = some m ∧
      m.err = none ∧
      m.results = series.map zipSeries ∧
      m.results.length = series.length ∧
      m.results.map List.length = series.map (fun s => s.GetTimestamps.length) ∧
      m.results.map (fun out => out.map (fun x => x.Timestamp))
        = series.map (fun s => s.GetTimestamps.map time.UnixMilli) ∧
      m.results.map (fun out => out.map (fun x => x.Value))
        = series.map (fun s => s.GetValues) := by
  have hloop := collectionsLoop_single_series series [] hlen
  have hl : (series.map zipSeries).map List.length
      = series.map (fun s => s.GetTimestamps.length) := by
    simp only [List.map_map]
    apply List.map_congr_left
    intro s hs
    exact zipSeries_length s (hlen s hs)
  have ht : (series.map zipSeries).map (fun out => out.map (fun x => x.Timestamp))
      = series.map (fun s => s.GetTimestamps.map time.UnixMilli) := by
    simp only [List.map_map]
    apply List.map_congr_left
    intro s hs
    exact zipSeries_timestamps s (hlen s hs)
  have hv : (series.map zipSeries).map (fun out => out.map (fun x => x.Value))
      = series.map (fun s => s.GetValues) := by
    simp only [List.map_map]
    apply List.map_congr_left
    intro s hs
    exact zipSeries_values s (hlen s hs)
  by_cases hN : series = []
  · subst hN
    exact ⟨⟨[], none, ["empty metrics response from dynatrace, try a wider query window"]⟩,
      by simp [QueryMultiple, hclient, hctx, herr, hres], rfl, rfl, rfl, rfl, rfl, rfl⟩
  · exact ⟨⟨series.map zipSeries, none, []⟩,
      by simp [QueryMultiple, hclient, hctx, herr, hres, hloop, hN], rfl, rfl, by simp,
      hl, ht, hv⟩

/-- C2, witness: two result groups, the first with an empty data series and the second with
one of two points. -/
theorem QueryMultiple_one_series_per_group_witness :
    ∃ m : QueryMultipleReturn Int,
      QueryMultiple (answering (bodyOf [[seriesEmpty], [seriesC]])) configuredPlugin "q" testRange
        = some m ∧
      m.err = none ∧
      m.results = [seriesEmpty, seriesC].map zipSeries ∧
      m.results.length = [seriesEmpty, seriesC].length ∧
      m.results.map List.length = [seriesEmpty, seriesC].map (fun s => s.GetTimestamps.length) ∧
      m.results.map (fun out => out.map (fun x => x.Timestamp))
        = [seriesEmpty, seriesC].map (fun s => s.GetTimestamps.map time.UnixMilli) ∧
      m.results.map (fun out => out.map (fun x => x.Value))
        = [seriesEmpty, seriesC].map (fun s => s.GetValues) :=
  QueryMultiple_one_series_per_group (answering (bodyOf [[seriesEmpty], [seriesC]]))
    configuredPlugin "q" testRange (dynatrace.NewAPIClient { Scheme := "https" })
    { ServerVariables := [("name", "stub.example")]
      APIKeys := [("Api-Token", { Prefix := "Api-Token", Key := "tok-123" })] }
    [seriesEmpty, seriesC] rfl rfl rfl rfl (by decide)

/-- C2, counterexample. One result group whose one data series is empty (`N = 1`,
`L_1 = 0`): there is no non-empty data series, and `QueryMultiple` returns one series (an
empty one). -/
theorem QueryMultiple_keeps_empty_series :
    ([seriesEmpty].filter (fun s => decide (0 < s.GetTimestamps.length))).length = 0 ∧
    QueryMultiple (answering (bodyOf [[seriesEmpty]])) configuredPlugin "q" testRange
      = some { results := [[]], err := none, warnings := [] } ∧
    (QueryMultiple (answering (bodyOf [[seriesEmpty]])) configuredPlugin "q" testRange).map
      (fun m => m.results.length) = some 1 := by
  decide

/-- C4. When the client reports an error with cause `cause`: if the response has status
429, `QueryMultiple` returns no result and the rate-limit error; for every other status, and
when there is no response at all (a transport failure), it returns no result and the
query-failed error that ends with the cause; the two errors differ for every cause. -/
theorem QueryMultiple_backend_failure {V : Type} (execute : dynatrace.Backend V)
    (p : APMPlugin) (q : String) (r : sdk.TimeRange) (client : dynatrace.APIClient)
    (ctx : dynatrace.Context) (cause : String)
    (hclient : p.client = some client) (hctx : p.clientCtx = some ctx)
    (herr : (execute client (queryRequest ctx q r)).err = some cause) :
    ((execute client (queryRequest ctx q r)).res.map (fun res => res.StatusCode) = some 429 →
      QueryMultiple execute p q r
        = some { results := [], err := some rateLimitedMessage, warnings := [] }) ∧
    ((execute client (queryRequest ctx q r)).res.map (fun res => res.StatusCode) ≠ some 429 →
      QueryMultiple execute p q r
        = some { results := [], err := some (queryFailedMessage cause), warnings := [] }) ∧
    rateLimitedMessage ≠ queryFailedMessage cause ∧
    rateLimitedMessage = "metrics query rate limited by dynatrace, wait and retry" ∧
    queryFailedMessage cause = "error querying metrics from dynatrace: " ++ cause := by
  refine ⟨?_, ?_, rateLimited_ne_queryFailed cause, rfl, rfl⟩
  · intro h
    simp [QueryMultiple, hclient, hctx, herr, h, StatusTooManyRequests, rateLimitedMessage]
  · intro h
    simp [QueryMultiple, hclient, hctx, herr, h, StatusTooManyRequests, queryFailedMessage]

/-- C4, witness: a backend that answers 429. -/
theorem QueryMultiple_backend_failure_witness :
    ((failing (some { StatusCode := 429 }) "429 Too Many Requests"
        (dynatrace.NewAPIClient { Scheme := "https" })
        (queryRequest { ServerVariables := [("name", "stub.example")]
                        APIKeys := [("Api-Token", { Prefix := "Api-Token", Key := "tok-123" })] }
          "q" testRange)).res.map (fun res => res.StatusCode) = some 429 →
      QueryMultiple (failing (some { StatusCode := 429 }) "429 Too Many Requests")
        configuredPlugin "q" testRange
        = some { results := [], err := some rateLimitedMessage, warnings := [] }) ∧
    ((failing (some { StatusCode := 429 }) "429 Too Many Requests"
        (dynatrace.NewAPIClient { Scheme := "https" })
        (queryRequest { ServerVariables := [("name", "stub.example")]
                        APIKeys := [("Api-Token", { Prefix := "Api-Token", Key := "tok-123" })] }
          "q" testRange)).res.map (fun res => res.StatusCode) ≠ some 429 →
      QueryMultiple (failing (some { StatusCode := 429 }) "429 Too Many Requests")
        configuredPlugin "q" testRange
        = some { results := [], err := some (queryFailedMessage "429 Too Many Requests"),
                 warnings := [] }) ∧
    rateLimitedMessage ≠ queryFailedMessage "429 Too Many Requests" ∧
    rateLimitedMessage = "metrics query rate limited by dynatrace, wait and retry" ∧
    queryFailedMessage "429 Too Many Requests"
      = "error querying metrics from dynatrace: " ++ "429 Too Many Requests" :=
  QueryMultiple_backend_failure (failing (some { StatusCode := 429 }) "429 Too Many Requests")
    configuredPlugin "q" testRange (dynatrace.NewAPIClient { Scheme := "https" })
    { ServerVariables := [("name", "stub.example")]
      APIKeys := [("Api-Token", { Prefix := "Api-Token", Key := "tok-123" })] }
    "429 Too Many Requests" rfl rfl rfl

/-- C5. For every successful backend response that has no result group, or whose result
groups all carry no data array, `QueryMultiple` returns the empty result set and no error
(and logs one warning), and `Query` returns an empty series and no error. -/
theorem QueryMultiple_empty_response {V : Type} (execute : dynatrace.Backend V)
    (p : APMPlugin) (q : String) (r : sdk.TimeRange) (client : dynatrace.APIClient)
    (ctx : dynatrace.Context)
    (hclient : p.client = some client) (hctx : p.clientCtx = some ctx)
    (herr : (execute client (queryRequest ctx q r)).err = none)
    (hres : (execute client (queryRequest ctx q r)).qr.GetResult = [] ∨
      ∀ c ∈ (execute client (queryRequest ctx q r)).qr.GetResult, c.GetDataOk = none) :
    (∃ w : String, QueryMultiple execute p q r
      = some { results := [], err := none, warnings := [w] }) ∧
    Query execute p q r = some { series := [], err := none } := by
  have hqm : ∃ w : String, QueryMultiple execute p q r
      = some { results := [], err := none, warnings := [w] } := by
    by_cases hN : (execute client (queryRequest ctx q r)).qr.GetResult = []
    · exact ⟨"empty metrics response from dynatrace, try a wider query window",
        by simp [QueryMultiple, hclient, hctx, herr, hN]⟩
    · have hall : ∀ c ∈ (execute client (queryRequest ctx q r)).qr.GetResult,
          c.GetDataOk = none := by
        rcases hres with h | h
        · exact absurd h hN
        · exact h
      have hloop := collectionsLoop_no_data _ [] hall
      exact ⟨"no data points found in the metrics response from dynatrace, " ++
          "try a wider query window",
        by simp [QueryMultiple, hclient, hctx, herr, hN, hloop]⟩
  obtain ⟨w, hw⟩ := hqm
  exact ⟨⟨w, hw⟩, by simp [Query, hw]⟩

/-- C5, witness: a response of one result group without a data array. -/
theorem QueryMultiple_empty_response_witness :
    (∃ w : String,
      QueryMultiple (answering ({ Result := some [{ Data := none }] } : dynatrace.MetricData Int))
        configuredPlugin "q" testRange
      = some { results := [], err := none, warnings := [w] }) ∧
    Query (answering ({ Result := some [{ Data := none }] } : dynatrace.MetricData Int))
      configuredPlugin "q" testRange = some { series := [], err := none } :=
  QueryMultiple_empty_response
    (answering ({ Result := some [{ Data := none }] } : dynatrace.MetricData Int))
    configuredPlugin "q" testRange (dynatrace.NewAPIClient { Scheme := "https" })
    { ServerVariables := [("name", "stub.example")]
      APIKeys := [("Api-Token", { Prefix := "Api-Token", Key := "tok-123" })] }
    rfl rfl rfl (Or.inr (by decide))

/-! ## Times in milliseconds -/

theorem wrap64_of_isInt64 (x : Int) (h : isInt64 x) : wrap64 x = x := by
  obtain ⟨h1, h2⟩ := h
  unfold wrap64
  omega

theorem tdiv_of_nonneg (a b : Int) (ha : 0 ≤ a) (hb : 0 ≤ b) : a.tdiv b = a / b :=
  Int.tdiv_eq_ediv ha hb

theorem tdiv_of_neg (a b : Int) (ha : a ≤ 0) (hb : 0 ≤ b) : a.tdiv b = -((-a) / b) := by
  have h : a = -(-a) := by omega
  rw [h, Int.neg_tdiv, Int.tdiv_eq_ediv (by omega) hb]
  simp

theorem tmod_of_nonneg (a b : Int) (ha : 0 ≤ a) (hb : 0 ≤ b) : a.tmod b = a % b :=
  Int.tmod_eq_emod ha hb

theorem tmod_of_neg (a b : Int) (ha : a ≤ 0) (hb : 0 ≤ b) : a.tmod b = -((-a) % b) := by
  rw [Int.tmod_def, tdiv_of_neg a b ha hb, Int.emod_def]
  rw [Int.mul_neg]
  omega

/-- What `time.UnixMilli` builds from an `int64`: the seconds are the floor of
`msec / 1000` counted from year 1, the nanoseconds the remainder. -/
theorem UnixMilli_fields (msec : Int) (h : isInt64 msec) :
    time.UnixMilli msec
      = { sec := msec / 1000 + time.unixToInternal, nsec := msec % 1000 * 1000000 } := by
  obtain ⟨h1, h2⟩ := h
  by_cases hpos : 0 ≤ msec
  · have hd := tdiv_of_nonneg msec 1000 hpos (by decide)
    have hm := tmod_of_nonneg msec 1000 hpos (by decide)
    simp only [time.UnixMilli, hd, hm]
    have hw : wrap64 (msec % 1000 * 1000000) = msec % 1000 * 1000000 := by
      unfold wrap64; omega
    rw [hw]
    have hc : ¬ (msec % 1000 * 1000000 < 0 ∨ msec % 1000 * 1000000 ≥ 1000000000) := by omega
    simp only [time.Unix, hc, if_false, time.unixTime, time.unixToInternal]
    have hs : wrap64 (msec / 1000 + 62135596800) = msec / 1000 + 62135596800 := by
      unfold wrap64; omega
    rw [hs]
  · have hneg : msec ≤ 0 := by omega
    have hd := tdiv_of_neg msec 1000 hneg (by decide)
    have hm := tmod_of_neg msec 1000 hneg (by decide)
    simp only [time.UnixMilli, hd, hm]
    have hw : wrap64 (-(-msec % 1000) * 1000000) = -(-msec % 1000) * 1000000 := by
      unfold wrap64; omega
    rw [hw]
    by_cases hz : -msec % 1000 = 0
    · have hc : ¬ (-(-msec % 1000) * 1000000 < 0 ∨ -(-msec % 1000) * 1000000 ≥ 1000000000) := by
        omega
      simp only [time.Unix, hc, if_false, time.unixTime, time.unixToInternal]
      have hs : wrap64 (-(-msec / 1000) + 62135596800) = msec / 1000 + 62135596800 := by
        unfold wrap64; omega
      rw [hs]
      have hn : -(-msec % 1000) * 1000000 = msec % 1000 * 1000000 := by omega
      rw [hn]
    · have hc : -(-msec % 1000) * 1000000 < 0 ∨ -(-msec % 1000) * 1000000 ≥ 1000000000 := by
        omega
      have hn0 : (-(-msec % 1000) * 1000000).tdiv 1000000000 = 0 := by
        rw [tdiv_of_neg _ _ (by omega) (by decide)]
        omega
      simp only [time.Unix, hc, if_true, hn0]
      have hn1 : wrap64 (-(-msec % 1000) * 1000000 - wrap64 (0 * 1000000000))
          = -(-msec % 1000) * 1000000 := by
        unfold wrap64; omega
      rw [hn1]
      have hlt : -(-msec % 1000) * 1000000 < 0 := by omega
      simp only [hlt, if_true, time.unixTime, time.unixToInternal]
      have hs : wrap64 (wrap64 (wrap64 (-(-msec / 1000) + 0) - 1) + 62135596800)
          = msec / 1000 + 62135596800 := by
        unfold wrap64; omega
      have e1 : msec % 1000 = 1000 - -msec % 1000 := by omega
      have hn : wrap64 (-(-msec % 1000) * 1000000 + 1000000000) = msec % 1000 * 1000000 := by
        rw [e1]
        have hb : 0 < -msec % 1000 ∧ -msec % 1000 < 1000 := by omega
        generalize -msec % 1000 = b at hb
        unfold wrap64; omega
      rw [hs, hn]

/-- Go `Time.UnixMilli` is the exact epoch-millisecond value wrapped to an `int64`. -/
theorem Time_UnixMilli_eq_wrap (t : time.Time) (hn : 0 ≤ t.nsec) :
    t.UnixMilli = wrap64 (epochMilli t) := by
  have hd := tdiv_of_nonneg t.nsec 1000000 hn (by decide)
  simp only [time.Time.UnixMilli, time.Time.unixSec, time.internalToUnix, time.unixToInternal,
    epochMilli, hd]
  unfold wrap64
  omega

theorem Time_UnixMilli_exact (t : time.Time) (hn : 0 ≤ t.nsec) (h : isInt64 (epochMilli t)) :
    t.UnixMilli = epochMilli t := by
  rw [Time_UnixMilli_eq_wrap t hn, wrap64_of_isInt64 _ h]

theorem UnixMilli_roundtrip (msec : Int) (h : isInt64 msec) :
    (time.UnixMilli msec).UnixMilli = msec := by
  have hf := UnixMilli_fields msec h
  obtain ⟨h1, h2⟩ := h
  have hn : 0 ≤ (time.UnixMilli msec).nsec := by rw [hf]; simp only; omega
  rw [Time_UnixMilli_eq_wrap _ hn, hf]
  simp only [epochMilli, time.unixToInternal]
  unfold wrap64
  omega

theorem Unix_whole_second (s : Int) (hs : isInt64 s) (hms : isInt64 (s * 1000)) :
    validTime (time.Unix s 0) ∧ epochMilli (time.Unix s 0) = s * 1000 ∧
      (time.Unix s 0).UnixMilli = s * 1000 := by
  obtain ⟨h1, h2⟩ := hs
  obtain ⟨h3, h4⟩ := hms
  have hc : ¬ ((0 : Int) < 0 ∨ (0 : Int) ≥ 1000000000) := by omega
  have hu : time.Unix s 0 = { sec := s + 62135596800, nsec := 0 } := by
    simp only [time.Unix, hc, if_false, time.unixTime, time.unixToInternal]
    have hw : wrap64 (s + 62135596800) = s + 62135596800 := by unfold wrap64; omega
    rw [hw]
  have he : epochMilli (time.Unix s 0) = s * 1000 := by
    rw [hu]; simp only [epochMilli, time.unixToInternal]; omega
  refine ⟨?_, he, ?_⟩
  · rw [hu]
    refine ⟨⟨?_, ?_⟩, ?_, ?_⟩ <;> dsimp only <;> omega
  · rw [Time_UnixMilli_exact _ (by rw [hu]) (by rw [he]; exact ⟨h3, h4⟩), he]

theorem QueryMultiple_depends_on_one_request {V : Type} (execute execute2 : dynatrace.Backend V)
    (p : APMPlugin) (q : String) (r : sdk.TimeRange) (client : dynatrace.APIClient)
    (ctx : dynatrace.Context) (hclient : p.client = some client) (hctx : p.clientCtx = some ctx)
    (h : execute client (queryRequest ctx q r) = execute2 client (queryRequest ctx q r)) :
    QueryMultiple execute p q r = QueryMultiple execute2 p q r := by
  simp only [QueryMultiple, hclient, hctx, h]

/-- C10, as amended. For every time range whose two ends are in epoch milliseconds values of
`int64`: the request `QueryMultiple` gives to the backend (the only one, the result depends
on the backend through its answer to it alone) has for `from` and `to` the base-10 rendering
of the exact epoch milliseconds of the two ends, which for a whole-second time is the second
count times 1000; every backend timestamp `ms` is converted to the time whose
epoch-millisecond value is `ms` again; and every backend timestamp between the `from` and
the `to` sent is returned as a time strictly after the start minus one second and strictly
before the end plus one second. -/
theorem QueryMultiple_millisecond_times (ctx : dynatrace.Context) (q : String)
    (r : sdk.TimeRange) (hF : validTime r.From) (hT : validTime r.To)
    (hFm : isInt64 (epochMilli r.From)) (hTm : isInt64 (epochMilli r.To)) :
    (queryRequest ctx q r).From = FormatInt10 (epochMilli r.From) ∧
    (queryRequest ctx q r).To = FormatInt10 (epochMilli r.To) ∧
    (∀ (V : Type) (execute execute2 : dynatrace.Backend V) (p : APMPlugin)
        (client : dynatrace.APIClient),
      p.client = some client → p.clientCtx = some ctx →
      execute client (queryRequest ctx q r) = execute2 client (queryRequest ctx q r) →
      QueryMultiple execute p q r = QueryMultiple execute2 p q r) ∧
    (∀ s : Int, isInt64 s → isInt64 (s * 1000) →
      validTime (time.Unix s 0) ∧ epochMilli (time.Unix s 0) = s * 1000 ∧
        (time.Unix s 0).UnixMilli = s * 1000) ∧
    (∀ ms : Int, isInt64 ms → (time.UnixMilli ms).UnixMilli = ms) ∧
    (∀ ms : Int, isInt64 ms → r.From.UnixMilli ≤ ms → ms ≤ r.To.UnixMilli →
      (time.UnixMilli ms).After (shiftSeconds r.From (-1)) = true ∧
      (time.UnixMilli ms).Before (shiftSeconds r.To 1) = true) := by
  have hFe := Time_UnixMilli_exact r.From hF.2.1 hFm
  have hTe := Time_UnixMilli_exact r.To hT.2.1 hTm
  refine ⟨by simp only [queryRequest, hFe], by simp only [queryRequest, hTe], ?_,
    Unix_whole_second, UnixMilli_roundtrip, ?_⟩
  · intro V execute execute2 p client hclient hctx h
    exact QueryMultiple_depends_on_one_request execute execute2 p q r client ctx hclient hctx h
  · intro ms hms hlo hhi
    rw [hFe] at hlo
    rw [hTe] at hhi
    rw [UnixMilli_fields ms hms]
    obtain ⟨⟨f1, f2⟩, f3, f4⟩ := hF
    obtain ⟨⟨t1, t2⟩, t3, t4⟩ := hT
    obtain ⟨m1, m2⟩ := hms
    simp only [epochMilli, time.unixToInternal] at hlo hhi
    constructor
    · simp only [time.Time.After, shiftSeconds, time.unixToInternal]
      have : r.From.sec + -1 < ms / 1000 + 62135596800 := by omega
      simp [this]
    · simp only [time.Time.Before, shiftSeconds, time.unixToInternal]
      have : ms / 1000 + 62135596800 < r.To.sec + 1 := by omega
      simp [this]

/-- C10, witness: the time range of the test, whose ends are sent as `1681041120000` and
`1681041720000`. -/
theorem QueryMultiple_millisecond_times_witness :
    (queryRequest stubContext "q" testRange).From = "1681041120000" ∧
    (queryRequest stubContext "q" testRange).To = "1681041720000" ∧
    validTime testRange.From ∧ validTime testRange.To ∧
    isInt64 (epochMilli testRange.From) ∧ isInt64 (epochMilli testRange.To) ∧
    FormatInt10 (epochMilli testRange.From) = "1681041120000" ∧
    ((time.UnixMilli 1681041120000).After (shiftSeconds testRange.From (-1)) = true ∧
      (time.UnixMilli 1681041120000).Before (shiftSeconds testRange.To 1) = true) :=
  ⟨by decide, by decide, by decide, by decide, by decide, by decide, by decide,
    (QueryMultiple_millisecond_times stubContext "q" testRange (by decide) (by decide)
      (by decide) (by decide)).2.2.2.2.2 1681041120000 (by decide) (by decide) (by decide)⟩

/-- C10, counterexample. The whole-second time 9223372036854776 seconds after the epoch is
a value of `time.Time`, its epoch milliseconds are 9223372036854776000, which is no `int64`,
and `QueryMultiple` sends `from` as `-9223372036854775616`: the multiplication by 1000 in
`Time.UnixMilli` wraps around. -/
theorem QueryMultiple_millisecond_times_overflow :
    farRange.From = time.Unix 9223372036854776 0 ∧
    validTime farRange.From ∧
    epochMilli farRange.From = 9223372036854776 * 1000 ∧
    FormatInt10 (9223372036854776 * 1000) = "9223372036854776000" ∧
    (queryRequest stubContext "q" farRange).From = "-9223372036854775616" ∧
    (queryRequest stubContext "q" farRange).From ≠ FormatInt10 (epochMilli farRange.From) := by
  decide

/-! ## Further facts and examples -/

theorem seriesLoop_length {V : Type} (series : List (dynatrace.MetricSeries V)) :
    ∀ (result : sdk.TimestampedMetrics V) (results : List (sdk.TimestampedMetrics V)),
      (∀ s ∈ series, s.GetTimestamps.length = s.GetValues.length) →
      ∃ out, seriesLoop series result results = some (results ++ out) ∧
        out.length = series.length := by
  induction series with
  | nil => intro result results _; exact ⟨[], by simp [seriesLoop], rfl⟩
  | cons s rest ih =>
    intro result results h
    have hs := h s (List.mem_cons_self s rest)
    have hrest : ∀ t ∈ rest, t.GetTimestamps.length = t.GetValues.length :=
      fun t ht => h t (List.mem_cons_of_mem s ht)
    have hp := pointsLoop_eq_zip s.GetValues s.GetTimestamps 0 result (by omega)
    obtain ⟨out, ho, hl⟩ := ih (result ++ zipSeries s) (results ++ [result ++ zipSeries s]) hrest
    refine ⟨(result ++ zipSeries s) :: out, ?_, by simp [hl]⟩
    simp only [List.drop_zero] at hp
    simp only [seriesLoop, hp]
    rw [show (List.zipWith (fun ts v => ({ Timestamp := time.UnixMilli ts, Value := v } :
      sdk.TimestampedMetric V)) s.GetTimestamps s.GetValues) = zipSeries s from rfl, ho]
    simp

theorem collectionsLoop_length {V : Type} (collections : List (dynatrace.MetricSeriesCollection V)) :
    ∀ results : List (sdk.TimestampedMetrics V),
      (∀ c ∈ collections, ∀ s ∈ c.Data.getD [],
        s.GetTimestamps.length = s.GetValues.length) →
      ∃ out, collectionsLoop collections results = some (results ++ out) ∧
        out.length = countSeries collections := by
  induction collections with
  | nil => intro results _; exact ⟨[], by simp [collectionsLoop], rfl⟩
  | cons c rest ih =>
    intro results h
    have hc := h c (List.mem_cons_self c rest)
    have hrest : ∀ d ∈ rest, ∀ s ∈ d.Data.getD [],
        s.GetTimestamps.length = s.GetValues.length :=
      fun d hd => h d (List.mem_cons_of_mem c hd)
    cases hd : c.Data with
    | none =>
      obtain ⟨out, ho, hl⟩ := ih results hrest
      refine ⟨out, ?_, ?_⟩
      · simp [collectionsLoop, dynatrace.MetricSeriesCollection.GetDataOk, hd, ho]
      · simp [countSeries, hd] at hl ⊢
        exact hl
    | some series =>
      rw [hd] at hc
      obtain ⟨out1, ho1, hl1⟩ := seriesLoop_length series [] results hc
      obtain ⟨out, ho, hl⟩ := ih (results ++ out1) hrest
      refine ⟨out1 ++ out, ?_, ?_⟩
      · simp [collectionsLoop, dynatrace.MetricSeriesCollection.GetDataOk, hd, ho1, ho]
      · simp [countSeries, hd] at hl ⊢
        omega

/-- For every successful backend response whose data series all have as many timestamps
as values, `QueryMultiple` returns (it does not panic), without an error, and with exactly
one output series per data series found. -/
theorem QueryMultiple_one_output_per_series {V : Type} (execute : dynatrace.Backend V)
    (p : APMPlugin) (q : String) (r : sdk.TimeRange) (client : dynatrace.APIClient)
    (ctx : dynatrace.Context)
    (hclient : p.client = some client) (hctx : p.clientCtx = some ctx)
    (herr : (execute client (queryRequest ctx q r)).err = none)
    (hlen : ∀ c ∈ (execute client (queryRequest ctx q r)).qr.GetResult,
      ∀ s ∈ c.Data.getD [], s.GetTimestamps.length = s.GetValues.length) :
    ∃ m : QueryMultipleReturn V, QueryMultiple execute p q r = some m ∧ m.err = none ∧
      m.results.length = countSeries (execute client (queryRequest ctx q r)).qr.GetResult := by
  by_cases hN : (execute client (queryRequest ctx q r)).qr.GetResult = []
  · exact ⟨⟨[], none, ["empty metrics response from dynatrace, try a wider query window"]⟩,
      by simp [QueryMultiple, hclient, hctx, herr, hN], rfl, by simp [hN, countSeries]⟩
  · obtain ⟨out, ho, hl⟩ := collectionsLoop_length _ [] hlen
    simp only [List.nil_append] at ho
    exact ⟨⟨out, none, _⟩, by simp [QueryMultiple, hclient, hctx, herr, hN, ho]; rfl, rfl, hl⟩

/-- C3, an example: on the response of two series in one result group, for which
`QueryMultiple` returns two series, `Query` fails with the multiple-series error that states
the count 2. -/
theorem Query_determined_by_QueryMultiple_witness :
    Query (answering (bodyOf [[seriesA, seriesB]])) configuredPlugin "q" testRange
      = some { series := [], err := some (multipleSeriesMessage 2) } ∧
    multipleSeriesMessage 2 = "query returned data for 2 time series, only 1 is expected" :=
  ⟨((Query_determined_by_QueryMultiple (answering (bodyOf [[seriesA, seriesB]]))
      configuredPlugin "q" testRange).2
      { results := [[pointA], [pointA, pointB]], err := none, warnings := [] }
      (by decide)).2.2.2.1 rfl (by decide), by decide⟩

/-- C8, an example: the case "variable is not set" of the test `Test_FallbackFromEnv`. -/
theorem ValueOrFallback_FallbackFromEnv_spec_witness :
    ValueOrFallback "" (FallbackFromEnv (fun _ => false) (fun _ => none) "TEST_ENV_VARIABLE")
      = ("", some (Quote (fun _ => false) "TEST_ENV_VARIABLE" ++ " must not be empty")) ∧
    Quote (fun _ => false) "TEST_ENV_VARIABLE" = "\"" ++ "TEST_ENV_VARIABLE" ++ "\"" ∧
    "\"" ++ "TEST_ENV_VARIABLE" ++ "\"" ++ " must not be empty"
      = "\"TEST_ENV_VARIABLE\" must not be empty" :=
  ⟨(ValueOrFallback_FallbackFromEnv_spec (fun _ => false) (fun _ => none) ""
      "TEST_ENV_VARIABLE").2.2.1 rfl (Or.inl rfl),
    (ValueOrFallback_FallbackFromEnv_spec (fun _ => false) (fun _ => none) ""
      "TEST_ENV_VARIABLE").2.2.2.1 (by decide), by decide⟩

end Plugin
